import Mathlib

/-!
Verification of the ChatBet conversational betting assistant.

This file gives a shallow embedding, in Lean 4, of the parts of the source
that the specification claims talk about:

* `app/tools/chat_tools.py` — date-range parsing (`_parse_date_range`),
  odds resolution (`_get_match_odds_data`), daily odds analysis
  (`_analyze_daily_odds`), team fixture lookup (`find_team_fixture`),
  and the bet-placement validation of `place_real_bet`;
* `app/core/graph.py` — the conversation state (`AgentState`), the tool
  node (`call_tool`) with its context-patch merge, and the loop condition
  (`should_continue`);
* `app/main.py` — the `/chat` endpoint readiness gate.

External collaborators (the upstream HTTP API, the fuzzy string matcher
from the `thefuzz` library, the `dateparser` library, and the language
model) are modelled as explicit function parameters, so every theorem
quantifies over their behaviour where the source treats them as black
boxes.  Python `float` values are modelled as rationals (`Rat`), with an
explicit `PFloat` wrapper where the source uses `float("inf")`.  Python
dictionaries are modelled as association lists observed through `List.lookup`
(the first binding for a key is the value of that key).
-/
/-! ## Basic string utilities

Python's `in` operator on strings and `str.lower`. -/
/-- Sublist-at-front test: `pat` is a prefix of `s` (as character lists). -/
def charsPre : List Char → List Char → Bool
  | [], _ => true
  | _ :: _, [] => false
  | c :: cs, d :: ds => c = d && charsPre cs ds

/-- Python `pat in s` on character lists: `pat` occurs contiguously in `s`. -/
def charsSub (pat : List Char) : List Char → Bool
  | [] => pat.isEmpty
  | c :: cs => charsPre pat (c :: cs) || charsSub pat cs

/-- Python `pat in s` for strings. -/
def strContains (s pat : String) : Bool :=
  charsSub pat.data s.data

/-- Python `str.lower()` (ASCII case folding, which is all the source needs). -/
def strLower (s : String) : String :=
  ⟨s.data.map Char.toLower⟩

/-! ## Dates

The source works with Python `datetime.date` / `datetime.datetime` values in
UTC.  We model a date by its year/month/day fields and reason through the
proleptic-Gregorian day number (`toOrdinal`, Python's `date.toordinal`). -/
structure Date where
  year : Nat
  month : Nat
  day : Nat
deriving DecidableEq, Repr

/-- Gregorian leap-year test (Python `calendar.isleap`). -/
def isLeap (y : Nat) : Bool :=
  (y % 4 == 0 && y % 100 != 0) || y % 400 == 0

/-- Number of days of month `m` in year `y` (Python `calendar.monthrange(y, m)[1]`). -/
def daysInMonth (y m : Nat) : Nat :=
  if m = 2 then (if isLeap y then 29 else 28)
  else if m = 4 ∨ m = 6 ∨ m = 9 ∨ m = 11 then 30
  else 31

/-- Days in year `y` strictly before month `m`. -/
def daysBeforeMonth (y : Nat) : Nat → Nat
  | 0 => 0
  | 1 => 0
  | m + 2 => daysBeforeMonth y (m + 1) + daysInMonth y (m + 1)

/-- Days strictly before year `y` in the proleptic Gregorian calendar. -/
def daysBeforeYear (y : Nat) : Nat :=
  365 * (y - 1) + ((y - 1) / 4 + (y - 1) / 400 - (y - 1) / 100)

/-- Python `date.toordinal`: day number with `0001-01-01` mapped to `1`. -/
def Date.toOrdinal (d : Date) : Nat :=
  daysBeforeYear d.year + daysBeforeMonth d.year d.month + d.day

/-- Python `date.weekday()`: Monday = 0 … Sunday = 6.
`0001-01-01` (ordinal 1) was a Monday. -/
def Date.weekday (d : Date) : Nat :=
  (d.toOrdinal + 6) % 7

/-- Python date comparison `a <= b`. -/
def Date.le (a b : Date) : Bool :=
  a.toOrdinal ≤ b.toOrdinal

/-- A structurally valid calendar date (what `datetime.date` guarantees). -/
def Date.Valid (d : Date) : Prop :=
  1 ≤ d.year ∧ 1 ≤ d.month ∧ d.month ≤ 12 ∧ 1 ≤ d.day ∧ d.day ≤ daysInMonth d.year d.month

instance (d : Date) : Decidable d.Valid := by
  unfold Date.Valid; infer_instance

/-- The day after `d` (what adding `timedelta(days=1)` does). -/
def nextDay (d : Date) : Date :=
  if d.day < daysInMonth d.year d.month then ⟨d.year, d.month, d.day + 1⟩
  else if d.month < 12 then ⟨d.year, d.month + 1, 1⟩
  else ⟨d.year + 1, 1, 1⟩

/-- The day before `d` (what subtracting `timedelta(days=1)` does). -/
def prevDay (d : Date) : Date :=
  if 1 < d.day then ⟨d.year, d.month, d.day - 1⟩
  else if 1 < d.month then ⟨d.year, d.month - 1, daysInMonth d.year (d.month - 1)⟩
  else ⟨d.year - 1, 12, 31⟩

/-- `d + timedelta(days=n)`. -/
def addDays (d : Date) (n : Nat) : Date :=
  nextDay^[n] d

/-- `d - timedelta(days=n)`. -/
def subDays (d : Date) (n : Nat) : Date :=
  prevDay^[n] d

/-! ## `_parse_date_range` (`app/tools/chat_tools.py`, lines 118–150)

The trailing `dateparser.parse` branch calls into the external `dateparser`
library; it is modelled by the function parameter `dp` (applied, as in the
source, to the lowercased query).  `today` is the `datetime.now(timezone.utc)
.date()` value at execution time, passed explicitly. -/
def parse_date_range (dp : String → Option Date) (query : String) (today : Date) :
    Option (Date × Date) :=
  let q := strLower query
  if strContains q "weekend" then
    -- start_of_weekend = today + timedelta(days=(5 - today.weekday() + 7) % 7)
    -- today.weekday() ≤ 6, so Python's (5 - wd + 7) equals the Nat value 12 - wd.
    let start_of_weekend := addDays today ((12 - today.weekday) % 7)
    some (start_of_weekend, addDays start_of_weekend 1)
  else if strContains q "end of" && strContains q "month" then
    let last_day_of_month : Date := ⟨today.year, today.month, daysInMonth today.year today.month⟩
    some (subDays last_day_of_month 4, last_day_of_month)
  else if strContains q "month" then
    some (⟨today.year, today.month, 1⟩, ⟨today.year, today.month, daysInMonth today.year today.month⟩)
  else
    (dp q).map (fun d => (d, d))

/-! ## Timestamps and fixture records

Fixture timestamps arrive either as an ISO string under `"fixture_date"`
(run through `datetime.fromisoformat` after `replace("Z", "+00:00")`) or as a
bare `"MM-DD HH:MM"` string under `"startTime"` (run through
`datetime.strptime(f"{current_year}-{s}", "%Y-%m-%d %H:%M")`). -/
structure DateTime where
  date : Date
  hour : Nat
  minute : Nat
  second : Nat
deriving DecidableEq, Repr

/-- Python `datetime` comparison key.  For component-validated datetimes
(hour < 24, minute < 60, second < 60 — which every parser below enforces)
this single number orders datetimes exactly as Python compares them. -/
def DateTime.key (a : DateTime) : Nat :=
  ((a.date.toOrdinal * 24 + a.hour) * 60 + a.minute) * 60 + a.second

def DateTime.le (a b : DateTime) : Bool :=
  a.key ≤ b.key

/-- One record of the upstream fixtures list, holding exactly the keys the
source reads.  Nested accesses such as
`f.get("home_team_data", {}).get("name", {}).get("en")` collapse to one
optional field; `none` covers both a missing key and a `None` value (the
source never distinguishes the two on these paths). -/
structure Fixture where
  id : Option String
  tournament_id : Option String
  sport_id : Option String
  home_name : Option String
  away_name : Option String
  tournament_name : Option String
  fixture_date : Option String
  startTime : Option String
deriving DecidableEq, Repr

/-- Python truthiness of an optional string (`None` and `""` are falsy). -/
def truthyStr : Option String → Bool
  | some s => !s.isEmpty
  | none => false

/-- `s.replace("Z", "+00:00")`. -/
def zReplace (s : String) : String :=
  ⟨s.data.foldr
    (fun c acc => if c = 'Z' then '+' :: '0' :: '0' :: ':' :: '0' :: '0' :: acc else c :: acc)
    []⟩

def digitVal (c : Char) : Option Nat :=
  if c.isDigit then some (c.toNat - 48) else none

/-- Read exactly `n` decimal digits off the front of the character list. -/
def readDigits : Nat → List Char → Option (Nat × List Char)
  | 0, cs => some (0, cs)
  | _ + 1, [] => none
  | n + 1, c :: cs => do
    let d ← digitVal c
    let (rest, cs') ← readDigits n cs
    pure (d * 10 ^ n + rest, cs')

def expectChar (c : Char) : List Char → Option (List Char)
  | [] => none
  | d :: ds => if d = c then some ds else none

/-- `HH:MM[:SS]` with component validation, returning the remaining input. -/
def readTime (cs : List Char) : Option ((Nat × Nat × Nat) × List Char) := do
  let (h, cs) ← readDigits 2 cs
  let cs ← expectChar ':' cs
  let (m, cs) ← readDigits 2 cs
  if h < 24 ∧ m < 60 then
    match expectChar ':' cs with
    | some cs' => do
      let (s, cs'') ← readDigits 2 cs'
      if s < 60 then pure ((h, m, s), cs'') else none
    | none => pure ((h, m, 0), cs)
  else none

/-- A `±HH:MM` UTC-offset suffix.  `datetime.fromisoformat` stores the offset
in `tzinfo`; the source only ever reads the naive components afterwards
(`.date()`, `.strftime`), so the parsed value ignores the offset digits. -/
def readOffset : List Char → Option (List Char)
  | c :: cs' =>
    if c = '+' ∨ c = '-' then do
      let (_, cs'') ← readDigits 2 cs'
      let cs3 ← expectChar ':' cs''
      let (_, cs4) ← readDigits 2 cs3
      pure cs4
    else none
  | [] => none

/-- `datetime.fromisoformat` on the shapes the feed produces:
`YYYY-MM-DD`, optionally followed by `T` or a space and `HH:MM[:SS]`,
optionally followed by a `±HH:MM` offset.  Returns `none` where the source
would raise `ValueError` (the callers catch it and skip the fixture). -/
def parseIso (s : String) : Option DateTime := do
  let cs := s.data
  let (y, cs) ← readDigits 4 cs
  let cs ← expectChar '-' cs
  let (mo, cs) ← readDigits 2 cs
  let cs ← expectChar '-' cs
  let (d, cs) ← readDigits 2 cs
  if 1 ≤ mo ∧ mo ≤ 12 ∧ 1 ≤ d ∧ d ≤ daysInMonth y mo then
    match cs with
    | [] => pure ⟨⟨y, mo, d⟩, 0, 0, 0⟩
    | c :: cs' =>
      if c = 'T' ∨ c = ' ' then do
        let ((h, mi, sec), cs'') ← readTime cs'
        match cs'' with
        | [] => pure ⟨⟨y, mo, d⟩, h, mi, sec⟩
        | _ => do
          let rest ← readOffset cs''
          match rest with
          | [] => pure ⟨⟨y, mo, d⟩, h, mi, sec⟩
          | _ => none
      else none
  else none

/-- `datetime.strptime(f"{current_year}-{s}", "%Y-%m-%d %H:%M")`: the
`startTime` payload must be `MM-DD HH:MM`. -/
def parseStartTime (currentYear : Nat) (s : String) : Option DateTime := do
  let cs := s.data
  let (mo, cs) ← readDigits 2 cs
  let cs ← expectChar '-' cs
  let (d, cs) ← readDigits 2 cs
  let cs ← expectChar ' ' cs
  let (h, cs) ← readDigits 2 cs
  let cs ← expectChar ':' cs
  let (mi, cs) ← readDigits 2 cs
  if cs = [] ∧ 1 ≤ mo ∧ mo ≤ 12 ∧ 1 ≤ d ∧ d ≤ daysInMonth currentYear mo ∧ h < 24 ∧ mi < 60 then
    pure ⟨⟨currentYear, mo, d⟩, h, mi, 0⟩
  else none

/-- The shared timestamp normalization of `_analyze_daily_odds`,
`get_fixtures_by_date` and `find_team_fixture`: prefer `fixture_date`
(ISO), fall back to `startTime` (needs the current year), `none` when the
timestamp is missing or unparseable (those fixtures are skipped). -/
def fixtureDatetime (currentYear : Nat) (f : Fixture) : Option DateTime :=
  if truthyStr f.fixture_date then parseIso (zReplace (f.fixture_date.getD ""))
  else if truthyStr f.startTime then parseStartTime currentYear (f.startTime.getD "")
  else none

/-- The date-range fixture filter of `_analyze_daily_odds` (lines 168–179):
keep fixtures whose normalized timestamp has
`start_date <= fixture_datetime.date() <= end_date`. -/
def analyzeDateFilter (currentYear : Nat) (start_date end_date : Date)
    (fixtures : List Fixture) : List Fixture :=
  fixtures.filter (fun f =>
    match fixtureDatetime currentYear f with
    | some dt => Date.le start_date dt.date && Date.le dt.date end_date
    | none => false)

/-! ## Raw odds payloads

`api_client.get_odds` returns a JSON object whose market entries
(`"result"`, `"both_teams_to_score"`, …) are objects keyed by outcome name
(`"homeTeam"`, `"tie"`, …), each outcome being an object with optional
`"name"` and `"odds"` keys.  Markets are association lists so that the
generic `market.get(key, {}).get("odds")` access of the source stays
generic here.  An `"odds"` value is modelled as a rational (the source
compares and subtracts them as floats). -/
structure RawOutcome where
  name : Option String
  odds : Option Rat
deriving DecidableEq

abbrev RawMarket := List (String × RawOutcome)

structure RawOdds where
  status : Option String
  result : Option RawMarket
  both_teams_to_score : Option RawMarket
  double_chance : Option RawMarket
  over_under : Option RawMarket
  handicap : Option RawMarket
  half_time_result : Option RawMarket
deriving DecidableEq

/-- The `get_odds_from_market` helper of `_get_match_odds_data`:
`market.get(key, {}).get("odds") if market and isinstance(market.get(key), dict) else None`.
(`market` truthy means present and non-empty; a present key maps to an
outcome object, so the `isinstance` test is lookup success.) -/
def get_odds_from_market (market : Option RawMarket) (key : String) : Option Rat :=
  match market with
  | some mk =>
    if !mk.isEmpty then
      match List.lookup key mk with
      | some oc => oc.odds
      | none => none
    else none
  | none => none

/-- A market entry together with its `"name"` line, for the over/under and
handicap blocks (`{"line": market[k].get("name"), "odds": ...}`). -/
structure LineOdds where
  line : Option String
  odds : Option Rat
deriving DecidableEq

structure MatchResultOdds where
  home_win : Option Rat
  away_win : Option Rat
  draw : Option Rat
deriving DecidableEq

structure BttsOdds where
  yes : Option Rat
  no : Option Rat
deriving DecidableEq

structure DoubleChanceOdds where
  home_or_draw : Option Rat
  away_or_draw : Option Rat
  home_or_away : Option Rat
deriving DecidableEq

structure OverUnderOdds where
  over : Option LineOdds
  under : Option LineOdds
deriving DecidableEq

structure HandicapOdds where
  home : Option LineOdds
  away : Option LineOdds
deriving DecidableEq

/-- The normalized odds dictionary built at the end of `_get_match_odds_data`
(`odds_info`). -/
structure OddsInfo where
  matchLabel : String
  match_result : MatchResultOdds
  both_teams_to_score : BttsOdds
  double_chance : DoubleChanceOdds
  over_under : OverUnderOdds
  handicap : HandicapOdds
  half_time_result : MatchResultOdds
deriving DecidableEq

/-- Result of `_get_match_odds_data`: either the error dictionary
(`{"error": msg}`, optionally with an `"api_status"` key) or the normalized
`odds_info` dictionary. -/
inductive OddsDataResult where
  | err (msg : String) (api_status : Option String)
  | ok (info : OddsInfo)
deriving DecidableEq

/-- The `{"line": ..., "odds": ...} if market and key in market else None`
pattern of the over/under and handicap blocks. -/
def lineOddsOf (market : Option RawMarket) (key : String) : Option LineOdds :=
  match market with
  | some mk =>
    if !mk.isEmpty && (List.lookup key mk).isSome then
      some ⟨(List.lookup key mk).bind (fun oc => oc.name), get_odds_from_market market key⟩
    else none
  | none => none

/-- The fixture-scan predicate of `_get_match_odds_data` (lines 36–45): both
team names present and truthy, and their canonical forms equal the two
resolved query teams in either order. -/
def fixtureMatchPred (resolve : String → Option String) (c1 c2 : String) (f : Fixture) : Bool :=
  match f.home_name, f.away_name with
  | some h, some a =>
    if !h.isEmpty && !a.isEmpty then
      let hc := resolve h
      let ac := resolve a
      (hc = some c1 && ac = some c2) || (hc = some c2 && ac = some c1)
    else false
  | _, _ => false

/-- The odds normalization applied once a fixture has been located
(`_get_match_odds_data`, lines 50–116).  `getOdds` stands for
`api_client.get_odds(fixture_id, tournament_id, sport_id)`; a `none`
response or a non-`"Active"` status yields the inactive-odds error (the
source would additionally raise on a `None` response while building that
error's `api_status` field — the crash is folded into the same error here,
no claim depends on that path). -/
def oddsFromFixture (getOdds : String → String → String → Option RawOdds)
    (fx : Fixture) : OddsDataResult :=
  let fixture_id := fx.id
  let tournament_id := fx.tournament_id
  let sport_id := fx.sport_id.getD "1"
  let home_team_name := fx.home_name.getD "Home"
  let away_team_name := fx.away_name.getD "Away"
  if !truthyStr fixture_id || !truthyStr tournament_id then
    .err "Found match but missing IDs for odds." none
  else
    match getOdds (fixture_id.getD "") (tournament_id.getD "") sport_id with
    | none => .err "Odds are currently inactive or unavailable." none
    | some od =>
      if od.status ≠ some "Active" then
        .err "Odds are currently inactive or unavailable." od.status
      else
        .ok
          { matchLabel := home_team_name ++ " vs " ++ away_team_name
            match_result :=
              { home_win := get_odds_from_market od.result "homeTeam"
                away_win := get_odds_from_market od.result "awayTeam"
                draw := get_odds_from_market od.result "tie" }
            both_teams_to_score :=
              { yes := get_odds_from_market od.both_teams_to_score "yes"
                no := get_odds_from_market od.both_teams_to_score "no" }
            double_chance :=
              { home_or_draw := get_odds_from_market od.double_chance "homeTeam_or_draw"
                away_or_draw := get_odds_from_market od.double_chance "awayTeam_or_draw"
                home_or_away := get_odds_from_market od.double_chance "homeTeam_or_awayTeam" }
            over_under :=
              { over := lineOddsOf od.over_under "over"
                under := lineOddsOf od.over_under "under" }
            handicap :=
              { home := lineOddsOf od.handicap "homeTeam"
                away := lineOddsOf od.handicap "awayTeam" }
            half_time_result :=
              { home_win := get_odds_from_market od.half_time_result "homeTeam"
                away_win := get_odds_from_market od.half_time_result "awayTeam"
                draw := get_odds_from_market od.half_time_result "tie" } }

/-- `_get_match_odds_data(team_one, team_two)` (lines 16–116).  `resolve`
models `team_name_cache.get_best_match` (fuzzy matching against the fixed
catalog), `fixturesResp` models `api_client.get_fixtures_by_sport(1)`
(`none` for a missing response; the dict-with-`"data"`-key and bare-list
response shapes both amount to an optional fixture list). -/
def getMatchOddsData (resolve : String → Option String)
    (fixturesResp : Option (List Fixture))
    (getOdds : String → String → String → Option RawOdds)
    (team_one team_two : String) : OddsDataResult :=
  match resolve team_one, resolve team_two with
  | some canonical_team_one, some canonical_team_two =>
    if canonical_team_one = canonical_team_two then
      .err "Cannot get odds for a team against itself." none
    else
      match fixturesResp with
      | none => .err "Could not retrieve match data from the API." none
      | some fixtures_list =>
        if fixtures_list.isEmpty then .err "No match data found." none
        else
          match fixtures_list.find? (fixtureMatchPred resolve canonical_team_one canonical_team_two) with
          | none =>
            .err ("No upcoming match found between " ++ canonical_team_one ++ " and "
              ++ canonical_team_two ++ ".") none
          | some found_fixture => oddsFromFixture getOdds found_fixture
  | _, _ =>
    .err ("Could not find one or both teams: \x27" ++ team_one ++ "\x27, \x27"
      ++ team_two ++ "\x27.") none

/-! ## `_analyze_daily_odds` (lines 152–216)

The running extrema start from `float("inf")` (safest bet, competitiveness
gap) and `0` (riskiest bet); `PFloat` models a Python float that may be
infinite. -/
inductive PFloat where
  | val (q : Rat)
  | inf
deriving DecidableEq, Repr

/-- `x < y` on Python floats, for a finite left operand. -/
def PFloat.ltOf (x : Rat) : PFloat → Bool
  | .val q => x < q
  | .inf => true

/-- `x > y` on Python floats, for a finite left operand. -/
def PFloat.gtOf (x : Rat) : PFloat → Bool
  | .val q => q < x
  | .inf => false

structure BetPick where
  odds : PFloat
  fixture : Option String
  team : Option String
deriving DecidableEq, Repr

structure CompetitivePick where
  diff : PFloat
  fixture : Option String
deriving DecidableEq, Repr

structure AnalysisAcc where
  safest_bet : BetPick
  riskiest_bet : BetPick
  most_competitive : CompetitivePick
deriving DecidableEq, Repr

def initialAnalysisAcc : AnalysisAcc :=
  { safest_bet := ⟨.inf, none, none⟩
    riskiest_bet := ⟨.val 0, none, none⟩
    most_competitive := ⟨.inf, none⟩ }

/-- The per-fixture body of the analysis loop (lines 188–206): skip on
missing/falsy ids, missing or inactive odds, missing match-result market,
or either side lacking an `"odds"` value; otherwise fold the home and away
odds into the three running extrema, home side first, in source order. -/
def analyzeStep (getOdds : String → String → String → Option RawOdds)
    (acc : AnalysisAcc) (fixture : Fixture) : AnalysisAcc :=
  let sport_id := fixture.sport_id.getD "1"
  if !(truthyStr fixture.id && truthyStr fixture.tournament_id && !sport_id.isEmpty) then acc
  else
    match getOdds (fixture.id.getD "") (fixture.tournament_id.getD "") sport_id with
    | none => acc
    | some odds_data =>
      if odds_data.status ≠ some "Active" then acc
      else
        match odds_data.result with
        | none => acc
        | some result_market =>
          if result_market.isEmpty then acc
          else
            match List.lookup "homeTeam" result_market, List.lookup "awayTeam" result_market with
            | some home_data, some away_data =>
              match home_data.odds, away_data.odds with
              | some home_odds, some away_odds =>
                let home_name := home_data.name.getD "Home"
                let away_name := away_data.name.getD "Away"
                let match_name := home_name ++ " vs " ++ away_name
                let acc1 :=
                  if PFloat.ltOf home_odds acc.safest_bet.odds then
                    { acc with safest_bet := ⟨.val home_odds, some match_name, some home_name⟩ }
                  else acc
                let acc2 :=
                  if PFloat.ltOf away_odds acc1.safest_bet.odds then
                    { acc1 with safest_bet := ⟨.val away_odds, some match_name, some away_name⟩ }
                  else acc1
                let acc3 :=
                  if PFloat.gtOf home_odds acc2.riskiest_bet.odds then
                    { acc2 with riskiest_bet := ⟨.val home_odds, some match_name, some home_name⟩ }
                  else acc2
                let acc4 :=
                  if PFloat.gtOf away_odds acc3.riskiest_bet.odds then
                    { acc3 with riskiest_bet := ⟨.val away_odds, some match_name, some away_name⟩ }
                  else acc3
                let diff := |home_odds - away_odds|
                if PFloat.ltOf diff acc4.most_competitive.diff then
                  { acc4 with most_competitive := ⟨.val diff, some match_name⟩ }
                else acc4
              | _, _ => acc
            | _, _ => acc

def analyzeLoop (getOdds : String → String → String → Option RawOdds)
    (fixtures : List Fixture) : AnalysisAcc :=
  fixtures.foldl (analyzeStep getOdds) initialAnalysisAcc

/-- Result of `_analyze_daily_odds`: the error dictionary or the structured
analysis payload. -/
inductive AnalysisResult where
  | err (msg : String)
  | ok (start_date end_date : Date) (acc : AnalysisAcc)
deriving DecidableEq, Repr

/-- `_analyze_daily_odds(date_query)` (lines 152–216).  `dp` is the
`dateparser` fallback of `_parse_date_range`, `today` the execution date,
`currentYear` the `datetime.now().year` used for bare `startTime`
timestamps, `fixturesResp` the fixtures feed and `getOdds` the per-fixture
odds feed. -/
def analyze_daily_odds (dp : String → Option Date) (today : Date) (currentYear : Nat)
    (fixturesResp : Option (List Fixture))
    (getOdds : String → String → String → Option RawOdds)
    (date_query : String) : AnalysisResult :=
  match parse_date_range dp date_query today with
  | none =>
    .err ("Couldn\x27t understand the date or range \x27" ++ date_query ++ "\x27.")
  | some (start_date, end_date) =>
    match fixturesResp with
    | none => .err "Could not retrieve fixtures from the API."
    | some fixtures_list =>
      if fixtures_list.isEmpty then .err "No fixtures data was found to analyze."
      else
        let date_fixtures := analyzeDateFilter currentYear start_date end_date fixtures_list
        if date_fixtures.isEmpty then
          .err ("No matches found for the period \x27" ++ date_query ++ "\x27 to analyze.")
        else
          let acc := analyzeLoop getOdds date_fixtures
          if acc.safest_bet.fixture = none then
            .err ("Found matches for \x27" ++ date_query ++ "\x27, but couldn\x27t analyze their odds.")
          else
            .ok start_date end_date acc

/-! ## JSON values and the conversation state (`app/core/graph.py`)

Tool outputs are strings; `call_tool` attempts `json.loads` on them.  A
parsed JSON value is a `JValue`; a JSON object is an association list
observed through `List.lookup`. -/
inductive JValue where
  | jnull
  | jbool (b : Bool)
  | jnum (q : Rat)
  | jstr (s : String)
  | jarr (elems : List JValue)
  | jobj (fields : List (String × JValue))

abbrev JDict := List (String × JValue)

/-- Python truthiness of a JSON value. -/
def JValue.isTruthy : JValue → Bool
  | .jnull => false
  | .jbool b => b
  | .jnum q => q ≠ 0
  | .jstr s => !s.isEmpty
  | .jarr elems => !elems.isEmpty
  | .jobj fields => !fields.isEmpty

/-- Python `old.update(patch)` observed through `List.lookup`: a key present
in `patch` takes the patch's value, any other key keeps its value from
`old` (top-level/shallow overwrite). -/
def dictUpdate (old patch : JDict) : JDict :=
  patch ++ old

structure ToolCall where
  id : String
  name : String
  args : JDict

/-- A LangChain message: human, assistant (with its requested tool calls),
or tool result.  Tool-result content is a `JValue` because `call_tool` may
substitute a parsed `"display"` payload for the raw string. -/
inductive Msg where
  | user (content : String)
  | ai (content : String) (tool_calls : List ToolCall)
  | tool (content : JValue) (tool_call_id : String)

/-- `message.tool_calls` — only assistant messages carry tool calls. -/
def Msg.toolCalls : Msg → List ToolCall
  | .ai _ tcs => tcs
  | _ => []

/-- The `AgentState` TypedDict of `app/core/graph.py`. -/
structure AgentState where
  messages : List Msg
  match_context : Option JDict
  simulated_balance : Option Rat
  bets : List JValue

/-- Outcome of `json.loads(tool_output)`: the string is not JSON (or the
output is not a string — `TypeError`), parses to a non-dict value, or
parses to a dict. -/
inductive ParsedOutput where
  | notJson
  | jsonOther (v : JValue)
  | jsonDict (d : JDict)

/-- The context-merge section of `call_tool` (lines 126–137), entered with a
truthy `new_context`.  A dict context is shallow-merged into
`match_context`; a `"balance_change"` entry is added to
`simulated_balance`; a `"new_bet"` entry is appended to `bets`.  A `None`
balance or non-numeric delta raises `TypeError` inside the `try`, which the
`except` swallows after `match_context` has already been staged — so the
context survives but the balance and bets lines never run.  (A truthy
non-dict context value would raise at `current_context.update`: `TypeError`
for numbers/booleans is likewise swallowed; a string or list would escape
the `except` — no tool output produces one and no claim exercises that
path, so it is folded into the swallowed branch here.) -/
def applyContextMerge (state : AgentState) (content : JValue) (newContext : JValue)
    (tool_call_id : String) : AgentState :=
  let msgs := state.messages ++ [Msg.tool content tool_call_id]
  match newContext with
  | .jobj patch =>
    let current_context := state.match_context.getD []
    let merged := dictUpdate current_context patch
    match List.lookup "balance_change" patch with
    | some bc =>
      match state.simulated_balance, bc with
      | some current_balance, .jnum q =>
        let newBal := some (current_balance + q)
        match List.lookup "new_bet" patch with
        | some nb =>
          { messages := msgs, match_context := some merged,
            simulated_balance := newBal, bets := state.bets ++ [nb] }
        | none =>
          { messages := msgs, match_context := some merged,
            simulated_balance := newBal, bets := state.bets }
      | _, _ =>
        { state with messages := msgs, match_context := some merged }
    | none =>
      match List.lookup "new_bet" patch with
      | some nb =>
        { state with
            messages := msgs, match_context := some merged, bets := state.bets ++ [nb] }
      | none =>
        { state with messages := msgs, match_context := some merged }
  | _ =>
    { state with messages := msgs }

/-- The `elif "match" in parsed_output and "error" not in parsed_output`
branch of `call_tool` (lines 123–124): the whole parsed dict becomes the
context patch, the displayed content stays the raw tool output. -/
def call_tool_elif (state : AgentState) (raw : String) (parsed_output : JDict)
    (tool_call_id : String) : AgentState :=
  if (List.lookup "match" parsed_output).isSome && (List.lookup "error" parsed_output).isNone then
    applyContextMerge state (.jstr raw) (.jobj parsed_output) tool_call_id
  else
    { state with messages := state.messages ++ [Msg.tool (.jstr raw) tool_call_id] }

/-- The output-processing of `call_tool` (`app/core/graph.py`, lines
111–142), given the tool's raw string output and its `json.loads` outcome:
decide on a context patch, merge it, and append the tool-result message.
Unparseable or non-dict output leaves everything but `messages` untouched. -/
def call_tool (state : AgentState) (raw : String) (parsed : ParsedOutput)
    (tool_call_id : String) : AgentState :=
  match parsed with
  | .jsonDict parsed_output =>
    match List.lookup "context" parsed_output with
    | some v =>
      if v.isTruthy then
        let content :=
          match List.lookup "display" parsed_output with
          | some disp => disp
          | none => JValue.jstr raw
        applyContextMerge state content v tool_call_id
      else
        call_tool_elif state raw parsed_output tool_call_id
    | none => call_tool_elif state raw parsed_output tool_call_id
  | _ =>
    { state with messages := state.messages ++ [Msg.tool (.jstr raw) tool_call_id] }

/-- The balance injection of `call_tool` (lines 103–107): for
`place_simulated_bet` the current `simulated_balance` is written into the
tool arguments under `"current_balance"` (prepended here, which is what
assignment means for lookup). -/
def toolInputWithBalance (state : AgentState) (action : ToolCall) : JDict :=
  if action.name = "place_simulated_bet" then
    ("current_balance",
      match state.simulated_balance with
      | some q => JValue.jnum q
      | none => JValue.jnull) :: action.args
  else action.args

/-- `should_continue` (lines 146–148): keep looping to the tool node exactly
when the last message carries tool calls.  `"__end__"` is LangGraph's `END`
constant.  (An empty message list would raise in the source; the node is
only ever reached after the agent appended a message.) -/
def should_continue (state : AgentState) : String :=
  match state.messages.getLast? with
  | some last_message =>
    if !last_message.toolCalls.isEmpty then "continue_to_tool" else "__end__"
  | none => "__end__"

/-- The `call_model` node: everything it returns to the graph is one
appended assistant message; `decide` stands for the bound LLM invocation
(system prompt assembled from the whole state, so it sees all of it). -/
def call_model_node (decide : AgentState → Msg) (state : AgentState) : AgentState :=
  { state with messages := state.messages ++ [decide state] }

/-- The `call_tool` node as wired into the graph: take the first tool call
of the last message (`last_message.tool_calls[0]`), inject the balance,
execute (`execTool` models `tool_executor.invoke` plus `json.loads`), and
process the output. -/
def call_tool_node (execTool : String → JDict → String × ParsedOutput)
    (state : AgentState) : AgentState :=
  match state.messages.getLast? with
  | some last_message =>
    match last_message.toolCalls.head? with
    | some action =>
      let tool_input := toolInputWithBalance state action
      let (raw, parsed) := execTool action.name tool_input
      call_tool state raw parsed action.id
    | none => state
  | none => state

/-- The compiled graph semantics (`workflow` of `app/core/graph.py`): start
at the agent node; while `should_continue` says so, run the tool node and
return to the agent node.  The graph itself imposes no round-trip bound, so
the recursion is driven here by explicit fuel: `some` = the turn reached
`END` within that many agent steps, `none` = still looping.  (At runtime
LangGraph's `invoke` default recursion limit would eventually raise a
`GraphRecursionError` — an exception escaping to the HTTP layer, not a
response produced by this graph.) -/
def runGraph (decide : AgentState → Msg) (execTool : String → JDict → String × ParsedOutput)
    (state : AgentState) : Nat → Option AgentState
  | 0 => none
  | n + 1 =>
    let st1 := call_model_node decide state
    if should_continue st1 = "continue_to_tool" then
      runGraph decide execTool (call_tool_node execTool st1) n
    else some st1

/-! ## `place_real_bet` validation (`app/tools/chat_tools.py`, lines 550–614) -/
/-- Round `num / den` to the nearest integer, ties to even (what Python's
`format(x, ".2f")` does to the scaled value).  Phrased on the numerator and
denominator directly so that it evaluates by kernel reduction. -/
def roundHalfEvenInt (num : Int) (den : Nat) : Int :=
  let f := Int.fdiv num den
  let r2 := 2 * (num - f * den)
  if r2 < den then f
  else if (den : Int) < r2 then f + 1
  else if f % 2 = 0 then f else f + 1

/-- Python `f"{q:.2f}"`: the value at two decimals, rounding ties to even. -/
def fmt2 (q : Rat) : String :=
  let cents := roundHalfEvenInt (q.num * 100) q.den
  let sign := if cents < 0 then "-" else ""
  let n := cents.natAbs
  sign ++ toString (n / 100) ++ "." ++ (if n % 100 < 10 then "0" else "") ++ toString (n % 100)

/-- The insufficient-funds message of `place_real_bet` (line 568). -/
def insufficientMsg (current_balance amount : Rat) : String :=
  "Insufficient balance. You have $" ++ fmt2 current_balance ++ " but tried to bet $"
    ++ fmt2 amount ++ "."

inductive BetValidation where
  | reply (msg : String)
  | proceed (current_balance : Rat)

/-- The validation prefix of `place_real_bet` (lines 559–568): fetch the
balance (`balanceMoney` is the `"money"` field of
`api_client.get_user_balance()`, `none` when the response is missing or
falsy or lacks the key), reject non-positive amounts, then reject amounts
above the balance with a message reporting both figures.  `proceed` marks
control passing on to the odds lookup and bet submission (lines 570–614),
which never touch the balance. -/
def place_real_bet_validate (balanceMoney : Option Rat) (amount : Rat) : BetValidation :=
  match balanceMoney with
  | none => .reply "Could not verify user balance before placing bet."
  | some current_balance =>
    if amount ≤ 0 then .reply "Bet amount must be positive."
    else if current_balance < amount then .reply (insufficientMsg current_balance amount)
    else .proceed current_balance

/-! ## `find_team_fixture` (`app/tools/chat_tools.py`, lines 295–407) -/
def weekdayName : Nat → String
  | 0 => "Monday"
  | 1 => "Tuesday"
  | 2 => "Wednesday"
  | 3 => "Thursday"
  | 4 => "Friday"
  | 5 => "Saturday"
  | 6 => "Sunday"
  | _ => ""

def monthName : Nat → String
  | 1 => "January"
  | 2 => "February"
  | 3 => "March"
  | 4 => "April"
  | 5 => "May"
  | 6 => "June"
  | 7 => "July"
  | 8 => "August"
  | 9 => "September"
  | 10 => "October"
  | 11 => "November"
  | 12 => "December"
  | _ => ""

def pad2 (n : Nat) : String :=
  (if n < 10 then "0" else "") ++ toString n

/-- `date_obj.strftime("%A, %B %d at %H:%M UTC")`. -/
def strftimeLong (dt : DateTime) : String :=
  weekdayName dt.date.weekday ++ ", " ++ monthName dt.date.month ++ " " ++ pad2 dt.date.day
    ++ " at " ++ pad2 dt.hour ++ ":" ++ pad2 dt.minute ++ " UTC"

inductive FindTeamResult where
  | reply (msg : String)
  | listing (lines : List String)

/-- Step 2 of `find_team_fixture` (lines 329–366): keep fixtures with a
parseable timestamp, dated today or later, in which the corrected team name
equals the home or away name; each kept fixture carries its parsed
datetime (the source stashes it under `f["parsed_datetime"]`). -/
def upcomingTeamFixtures (currentYear : Nat) (today : Date) (corrected_team_name : String)
    (fixtures : List Fixture) : List (Fixture × DateTime) :=
  fixtures.filterMap (fun f =>
    match fixtureDatetime currentYear f with
    | some dt =>
      if Date.le today dt.date
          && (f.home_name = some corrected_team_name
              || f.away_name = some corrected_team_name) then
        some (f, dt)
      else none
    | none => none)

/-- Step 3 (lines 369–379): keep fixtures whose tournament display name
fuzzily matches the competition filter with partial-ratio score above 85.
`pratio` models `thefuzz.fuzz.partial_ratio`. -/
def filterByCompetition (pratio : String → String → Nat) (competition_name : String)
    (team_fixtures : List (Fixture × DateTime)) : List (Fixture × DateTime) :=
  team_fixtures.filter (fun p =>
    pratio (strLower competition_name) (strLower (p.1.tournament_name.getD "")) > 85)

/-- Step 4's per-fixture line (lines 390–404). -/
def fixtureLine (p : Fixture × DateTime) : String :=
  p.1.home_name.getD "N/A" ++ " vs " ++ p.1.away_name.getD "N/A" ++ " in the "
    ++ p.1.tournament_name.getD "N/A" ++ " on " ++ strftimeLong p.2

/-- The `team_fixtures` list of `find_team_fixture` after step 2 (upcoming
fixtures of the fuzzily corrected team) and the optional step-3 competition
filter. -/
def filteredTeamFixtures (extractOne : String → List String → String × Nat)
    (pratio : String → String → Nat)
    (allTeams : List String) (fixtures_list : List Fixture)
    (today : Date) (currentYear : Nat)
    (team_name : String) (competition_name : Option String) : List (Fixture × DateTime) :=
  if truthyStr competition_name then
    filterByCompetition pratio (competition_name.getD "")
      (upcomingTeamFixtures currentYear today (extractOne team_name allTeams).1 fixtures_list)
  else
    upcomingTeamFixtures currentYear today (extractOne team_name allTeams).1 fixtures_list

/-- The candidate list of `find_team_fixture` just before the 5-element
truncation: the filtered fixtures sorted ascending by kickoff time.
Python's `list.sort(key=parsed_datetime)` is a stable ascending sort;
insertion sort with a total preorder is that same stable sort. -/
def teamFixtureCandidates (extractOne : String → List String → String × Nat)
    (pratio : String → String → Nat)
    (allTeams : List String) (fixtures_list : List Fixture)
    (today : Date) (currentYear : Nat)
    (team_name : String) (competition_name : Option String) : List (Fixture × DateTime) :=
  (filteredTeamFixtures extractOne pratio allTeams fixtures_list today currentYear
    team_name competition_name).insertionSort (fun a b => DateTime.le a.2 b.2 = true)

/-- `find_team_fixture(team_name, competition_name)`.  `extractOne` models
`thefuzz.process.extractOne` (called only on a non-empty catalog, where it
totalizes), `pratio` models `fuzz.partial_ratio`, `allTeams` the team-name
cache, `fixturesResp` the fixtures feed.  A successful lookup returns the
formatted lines (the source joins them with a newline). -/
def find_team_fixture (extractOne : String → List String → String × Nat)
    (pratio : String → String → Nat)
    (allTeams : List String) (fixturesResp : Option (List Fixture))
    (today : Date) (currentYear : Nat)
    (team_name : String) (competition_name : Option String) : FindTeamResult :=
  if allTeams.isEmpty then
    .reply "Sorry, the team list is currently unavailable. Please try again in a moment."
  else if (extractOne team_name allTeams).2 < 80 then
    .reply ("I couldn\x27t find a team that closely matches \x27" ++ team_name
      ++ "\x27. Could you try a different name?")
  else
    match fixturesResp with
    | none => .reply "Error: Could not retrieve fixtures from the API."
    | some fixtures_list =>
      if fixtures_list.isEmpty then
        .reply ("No fixtures data was found for " ++ (extractOne team_name allTeams).1 ++ ".")
      else if (filteredTeamFixtures extractOne pratio allTeams fixtures_list today currentYear
          team_name competition_name).isEmpty then
        if truthyStr competition_name then
          .reply ("No upcoming fixtures found for " ++ (extractOne team_name allTeams).1
            ++ " in " ++ competition_name.getD "" ++ ".")
        else
          .reply ("No upcoming fixtures found for " ++ (extractOne team_name allTeams).1 ++ ".")
      else
        .listing (((teamFixtureCandidates extractOne pratio allTeams fixtures_list today
          currentYear team_name competition_name).take 5).map fixtureLine)

/-! ## The `/chat` endpoint readiness gate (`app/main.py`, lines 61–97) -/
inductive ChatOutcome where
  | notReady (detail : String)
  | ok (finalState : AgentState)

/-- The `/chat` handler: reject with HTTP 503 and a fixed detail while
`CACHE_READY` is false; otherwise append the user message to the session
state and invoke the agent graph (`runAgent` models `chat_agent.invoke`).
The 503 is FastAPI's `HTTPException`, a distinguishable signal distinct
from any chat response. -/
def chat_endpoint (cacheReady : Bool) (runAgent : AgentState → AgentState)
    (sessionState : AgentState) (user_input : String) : ChatOutcome :=
  if !cacheReady then
    .notReady "The chatbot is still initializing its knowledge base. Please wait a moment and try again."
  else
    .ok (runAgent { sessionState with messages := sessionState.messages ++ [Msg.user user_input] })

/-! ## Concrete instances used by the claim theorems below -/
/-- A decision service that requests another tool call on every invocation. -/
def alwaysToolDecide : AgentState → Msg :=
  fun _ => Msg.ai "" [⟨"call_1", "get_user_balance", []⟩]

/-- A tool executor returning a plain (non-JSON) string. -/
def plainToolExec : String → JDict → String × ParsedOutput :=
  fun _ _ => ("Your current balance is $100.00.", .notJson)

def c6Resolve : String → Option String := fun s =>
  if s = "barca" ∨ s = "Barcelona" then some "Barcelona"
  else if s = "real" ∨ s = "Real Madrid" then some "Real Madrid"
  else none

def c6Fixture : Fixture :=
  { id := some "f1", tournament_id := some "t1", sport_id := some "1"
    home_name := some "Real Madrid", away_name := some "Barcelona"
    tournament_name := some "La Liga"
    fixture_date := some "2025-03-10T18:00:00Z", startTime := none }

def c6GetOdds : String → String → String → Option RawOdds := fun fid _ _ =>
  if fid = "f1" then
    some { status := some "Active"
           result := some [("homeTeam", ⟨some "Real Madrid", some 2⟩),
                           ("awayTeam", ⟨some "Barcelona", some 3⟩),
                           ("tie", ⟨some "Draw", some 4⟩)]
           both_teams_to_score := none, double_chance := none
           over_under := none, handicap := none, half_time_result := none }
  else none

def c6Info : OddsInfo :=
  { matchLabel := "Real Madrid vs Barcelona"
    match_result := { home_win := some 2, away_win := some 3, draw := some 4 }
    both_teams_to_score := { yes := none, no := none }
    double_chance := { home_or_draw := none, away_or_draw := none, home_or_away := none }
    over_under := { over := none, under := none }
    handicap := { home := none, away := none }
    half_time_result := { home_win := none, away_win := none, draw := none } }

def c7Fixture : Fixture :=
  { id := some "f1", tournament_id := some "t1", sport_id := some "1"
    home_name := some "A", away_name := some "B", tournament_name := some "L"
    fixture_date := some "2025-03-10T18:00:00Z", startTime := none }

/-- An odds feed whose single usable fixture quotes 0.0 on both sides of the
match-result market — odds the source's usability checks accept. -/
def c7ZeroOdds : String → String → String → Option RawOdds := fun fid _ _ =>
  if fid = "f1" then
    some { status := some "Active"
           result := some [("homeTeam", ⟨some "A", some 0⟩), ("awayTeam", ⟨some "B", some 0⟩)]
           both_teams_to_score := none, double_chance := none
           over_under := none, handicap := none, half_time_result := none }
  else none

def c7Fixture2 : Fixture :=
  { id := some "f2", tournament_id := some "t1", sport_id := some "1"
    home_name := some "A", away_name := some "B", tournament_name := some "L"
    fixture_date := some "2025-03-10T18:00:00Z", startTime := none }

def c7Market2 : RawMarket :=
  [("homeTeam", ⟨some "A", some 2⟩), ("awayTeam", ⟨some "B", some 3⟩)]

def c7Odds2 : RawOdds :=
  { status := some "Active", result := some c7Market2
    both_teams_to_score := none, double_chance := none
    over_under := none, handicap := none, half_time_result := none }

def c7GoodOdds : String → String → String → Option RawOdds := fun fid _ _ =>
  if fid = "f2" then some c7Odds2 else none

def c8Fixture : Fixture :=
  { id := some "f1", tournament_id := some "t1", sport_id := some "1"
    home_name := some "A", away_name := some "B", tournament_name := some "L"
    fixture_date := some "2025-03-10T18:00:00Z", startTime := none }

def c10ExtractOne : String → List String → String × Nat := fun q _ => (q, 100)

def c10PRatio : String → String → Nat := fun _ _ => 100

def c10Fixture (fid ds : String) : Fixture :=
  { id := some fid, tournament_id := some "t1", sport_id := some "1"
    home_name := some "FC Test", away_name := some "Rivals", tournament_name := some "League"
    fixture_date := some ds, startTime := none }

/-- Seven upcoming fixtures for one team, deliberately out of order. -/
def c10Fixtures : List Fixture :=
  [c10Fixture "f1" "2025-03-08T18:00:00Z",
   c10Fixture "f2" "2025-03-05T18:00:00Z",
   c10Fixture "f3" "2025-03-12T18:00:00Z",
   c10Fixture "f4" "2025-03-03T18:00:00Z",
   c10Fixture "f5" "2025-03-20T18:00:00Z",
   c10Fixture "f6" "2025-03-15T18:00:00Z",
   c10Fixture "f7" "2025-03-10T18:00:00Z"]

theorem charsPre_iff (pat s : List Char) : charsPre pat s = true ↔ pat <+: s := by
  induction pat generalizing s with
  | nil => simp only [charsPre, true_iff]; exact List.nil_prefix
  | cons c cs ih =>
    cases s with
    | nil =>
      simp only [charsPre, List.prefix_nil]
      constructor
      · intro h; cases h
      · intro h; cases h
    | cons d ds =>
      simp only [charsPre, Bool.and_eq_true, decide_eq_true_eq, ih, List.cons_prefix_cons]

theorem charsSub_iff (pat s : List Char) : charsSub pat s = true ↔ pat <:+: s := by
  induction s with
  | nil =>
    simp only [charsSub, List.isEmpty_iff]
    constructor
    · rintro rfl; exact List.infix_rfl
    · intro h; exact List.sublist_nil.mp h.sublist
  | cons c cs ih =>
    simp only [charsSub, Bool.or_eq_true, charsPre_iff, ih]
    exact List.infix_cons_iff.symm

theorem strContains_append (s₁ mid s₂ : String) :
    strContains (s₁ ++ mid ++ s₂) mid = true := by
  have : mid.data <:+: (s₁ ++ mid ++ s₂).data := by
    have h : (s₁ ++ mid ++ s₂).data = s₁.data ++ mid.data ++ s₂.data := by
      simp [String.data_append]
    rw [h]
    exact List.infix_append s₁.data mid.data s₂.data
  exact (charsSub_iff _ _).mpr this

theorem daysBeforeMonth_succ (y m : Nat) (hm : 1 ≤ m) :
    daysBeforeMonth y (m + 1) = daysBeforeMonth y m + daysInMonth y m := by
  obtain ⟨m', rfl⟩ : ∃ m', m = m' + 1 := ⟨m - 1, by omega⟩
  rfl

theorem daysBeforeMonth_twelve (y : Nat) :
    daysBeforeMonth y 12 = 334 + (if isLeap y then 1 else 0) := by
  cases h : isLeap y <;>
    simp [show (12 : Nat) = 11 + 1 from rfl, show (11 : Nat) = 10 + 1 from rfl,
      show (10 : Nat) = 9 + 1 from rfl, show (9 : Nat) = 8 + 1 from rfl,
      show (8 : Nat) = 7 + 1 from rfl, show (7 : Nat) = 6 + 1 from rfl,
      show (6 : Nat) = 5 + 1 from rfl, show (5 : Nat) = 4 + 1 from rfl,
      show (4 : Nat) = 3 + 1 from rfl, show (3 : Nat) = 2 + 1 from rfl,
      show (2 : Nat) = 1 + 1 from rfl, daysBeforeMonth, daysInMonth, h]

theorem daysBeforeYear_succ (y : Nat) (hy : 1 ≤ y) :
    daysBeforeYear (y + 1) = daysBeforeYear y + 365 + (if isLeap y then 1 else 0) := by
  unfold daysBeforeYear isLeap
  rcases Nat.exists_eq_add_of_le hy with ⟨y', rfl⟩
  simp only [Nat.add_sub_cancel_left, Bool.or_eq_true, Bool.and_eq_true, beq_iff_eq,
    bne_iff_ne, ne_eq]
  split <;> omega

theorem daysInMonth_ge (y m : Nat) : 28 ≤ daysInMonth y m := by
  unfold daysInMonth
  split
  · split <;> omega
  · split <;> omega

theorem toOrdinal_nextDay (d : Date) (hd : d.Valid) :
    (nextDay d).toOrdinal = d.toOrdinal + 1 := by
  obtain ⟨hy, hm1, hm12, hd1, hdm⟩ := hd
  unfold nextDay
  split
  · simp only [Date.toOrdinal]
    omega
  · split
    · rename_i hlt hm
      have h1 : daysBeforeMonth d.year (d.month + 1)
          = daysBeforeMonth d.year d.month + daysInMonth d.year d.month :=
        daysBeforeMonth_succ d.year d.month hm1
      simp only [Date.toOrdinal, h1]
      omega
    · rename_i hlt hm
      have hm' : d.month = 12 := by omega
      have hdim : daysInMonth d.year d.month = 31 := by
        rw [hm']; simp [daysInMonth]
      have hday : d.day = 31 := by omega
      simp only [Date.toOrdinal, hday, hm', daysBeforeMonth_twelve,
        daysBeforeYear_succ d.year hy]
      have hdbm1 : daysBeforeMonth (d.year + 1) 1 = 0 := rfl
      rw [hdbm1]
      split <;> omega

theorem valid_nextDay (d : Date) (hd : d.Valid) : (nextDay d).Valid := by
  obtain ⟨hy, hm1, hm12, hd1, hdm⟩ := hd
  have h28 := daysInMonth_ge d.year d.month
  unfold nextDay
  split
  · exact ⟨hy, hm1, hm12, by dsimp only; omega, by dsimp only; omega⟩
  · split
    · have h28' := daysInMonth_ge d.year (d.month + 1)
      exact ⟨hy, by dsimp only; omega, by dsimp only; omega, by dsimp only; omega,
        by dsimp only; omega⟩
    · have h28' := daysInMonth_ge (d.year + 1) 1
      exact ⟨by dsimp only; omega, by dsimp only; omega, by dsimp only; omega,
        by dsimp only; omega, by dsimp only; omega⟩

theorem toOrdinal_addDays (d : Date) (n : Nat) (hd : d.Valid) :
    (addDays d n).toOrdinal = d.toOrdinal + n := by
  induction n generalizing d with
  | zero => simp [addDays]
  | succ n ih =>
    have hstep : addDays d (n + 1) = addDays (nextDay d) n := by
      simp [addDays, Function.iterate_add_apply, Function.iterate_one]
    rw [hstep, ih (nextDay d) (valid_nextDay d hd), toOrdinal_nextDay d hd]
    omega

theorem valid_addDays (d : Date) (n : Nat) (hd : d.Valid) : (addDays d n).Valid := by
  induction n generalizing d with
  | zero => simpa [addDays] using hd
  | succ n ih =>
    have hstep : addDays d (n + 1) = addDays (nextDay d) n := by
      simp [addDays, Function.iterate_add_apply, Function.iterate_one]
    rw [hstep]
    exact ih (nextDay d) (valid_nextDay d hd)

theorem weekday_addDays (d : Date) (n : Nat) (hd : d.Valid) :
    (addDays d n).weekday = (d.weekday + n) % 7 := by
  unfold Date.weekday
  rw [toOrdinal_addDays d n hd]
  omega

/-! ## Helper lemmas -/
theorem lookup_append_of_none {α : Type} [BEq α] {β : Type} {l₁ l₂ : List (α × β)} {k : α}
    (h : List.lookup k l₁ = none) : List.lookup k (l₁ ++ l₂) = List.lookup k l₂ := by
  induction l₁ with
  | nil => simp
  | cons p ps ih =>
    obtain ⟨a, b⟩ := p
    cases hkp : k == a with
    | true => simp [List.lookup, hkp] at h
    | false =>
      simp only [List.lookup, hkp] at h ⊢
      exact ih h

theorem lookup_append_of_some {α : Type} [BEq α] {β : Type} {l₁ l₂ : List (α × β)} {k : α} {v : β}
    (h : List.lookup k l₁ = some v) : List.lookup k (l₁ ++ l₂) = some v := by
  induction l₁ with
  | nil => simp at h
  | cons p ps ih =>
    obtain ⟨a, b⟩ := p
    cases hkp : k == a with
    | true =>
      simp only [List.lookup, hkp] at h ⊢
      exact h
    | false =>
      simp only [List.lookup, hkp] at h ⊢
      exact ih h

theorem find?_ext {α : Type} {p q : α → Bool} (h : ∀ a, p a = q a) :
    ∀ l : List α, List.find? p l = List.find? q l := by
  intro l
  induction l with
  | nil => rfl
  | cons a as ih =>
    rw [List.find?_cons, List.find?_cons, h a, ih]

theorem fixtureMatchPred_symm (resolve : String → Option String) (c1 c2 : String) (f : Fixture) :
    fixtureMatchPred resolve c2 c1 f = fixtureMatchPred resolve c1 c2 f := by
  unfold fixtureMatchPred
  cases f.home_name with
  | none => rfl
  | some h =>
    cases f.away_name with
    | none => rfl
    | some a =>
      dsimp only
      split
      · exact Bool.or_comm _ _
      · rfl

theorem lookup_isSome_not_isEmpty {α : Type} [BEq α] {β : Type} {l : List (α × β)} {k : α} {v : β}
    (h : List.lookup k l = some v) : l.isEmpty = false := by
  cases l with
  | nil => simp at h
  | cons p ps => rfl

theorem weekday_lt_seven (d : Date) : d.weekday < 7 :=
  Nat.mod_lt _ (by omega)

/-- C1: the claim says the engine enforces an explicit maximum number of
decision-to-tool round-trips per turn, ending the turn with a degraded
"unable to complete" response once the cap is hit.  The graph of
`app/core/graph.py` has no such cap: `should_continue` keeps looping to the
tool node whenever the last message carries tool calls, with no round-trip
counter anywhere in the state, so against a decision service that requests
a tool call on every invocation the decision/tool loop completes within no
number of round-trips at all — for every fuel `n`, `runGraph` is still
looping.  (At runtime the turn only stops when LangGraph's generic
`recursion_limit` raises `GraphRecursionError`, an exception surfacing as
an HTTP 500, not a degraded response produced by the engine.) -/
theorem c1_no_round_trip_cap (state : AgentState) (n : Nat) :
    runGraph alwaysToolDecide plainToolExec state n = none := by
  induction n generalizing state with
  | zero => rfl
  | succ n ih =>
    have hlast : (call_model_node alwaysToolDecide state).messages.getLast?
        = some (Msg.ai "" [⟨"call_1", "get_user_balance", []⟩]) := by
      simp only [call_model_node, alwaysToolDecide]
      exact List.getLast?_concat _
    have hsc : should_continue (call_model_node alwaysToolDecide state) = "continue_to_tool" := by
      rw [should_continue, hlast]
      rfl
    rw [runGraph]
    simp only [hsc, if_pos]
    exact ih _

/-! ## Claim C2 — "weekend" always means the next occurrence -/
/-- C2 counterexample: 2025-03-01 is a Saturday (weekday 5), yet parsing a
"weekend" query on that day returns the range starting at 2025-03-01 — the
current weekend's Saturday, not the next weekend — because the source's
offset `(5 - today.weekday() + 7) % 7` is `0` on a Saturday.  This refutes
the claim that the returned range is never the current weekend's Saturday
when today is part of a weekend. -/
theorem c2_weekend_on_saturday_is_today :
    Date.weekday ⟨2025, 3, 1⟩ = 5 ∧
    parse_date_range (fun _ => none) "this weekend" ⟨2025, 3, 1⟩
      = some (⟨2025, 3, 1⟩, ⟨2025, 3, 2⟩) :=
  ⟨rfl, rfl⟩

/-- C2 (amended): parsing a date query containing "weekend" yields the pair
`(s, s+1)` with `s = today + ((5 - weekday(today) + 7) % 7)` days; `s` is
always a Saturday, and it is strictly after today unless today itself is a
Saturday, in which case `s = today` — the current weekend, not the next.
(On a Sunday the offset is 6, so the following weekend is returned, as the
original claim said.) -/
theorem c2_weekend_resolution (dp : String → Option Date) (query : String) (today : Date)
    (hv : today.Valid)
    (hq : strContains (strLower query) "weekend" = true) :
    parse_date_range dp query today
      = some (addDays today ((12 - today.weekday) % 7),
              addDays (addDays today ((12 - today.weekday) % 7)) 1) ∧
    (addDays today ((12 - today.weekday) % 7)).weekday = 5 ∧
    ((12 - today.weekday) % 7 = 0 ↔ today.weekday = 5) ∧
    (today.weekday ≠ 5 →
      today.toOrdinal < (addDays today ((12 - today.weekday) % 7)).toOrdinal) := by
  have hwd := weekday_lt_seven today
  refine ⟨?_, ?_, ?_, ?_⟩
  · unfold parse_date_range
    simp only [hq, if_pos]
  · rw [weekday_addDays today _ hv]
    omega
  · omega
  · intro hne
    rw [toOrdinal_addDays today _ hv]
    omega

theorem c2_weekend_resolution_witness :
    Date.Valid ⟨2025, 3, 2⟩ ∧
    strContains (strLower "this weekend") "weekend" = true ∧
    Date.weekday ⟨2025, 3, 2⟩ = 6 ∧
    parse_date_range (fun _ => none) "this weekend" ⟨2025, 3, 2⟩
      = some (⟨2025, 3, 8⟩, ⟨2025, 3, 9⟩) :=
  ⟨by decide, rfl, rfl,
    ((c2_weekend_resolution (fun _ => none) "this weekend" ⟨2025, 3, 2⟩
      (by decide) rfl).1).trans (by rfl)⟩

/-! ## Claim C3 — insufficient balance is rejected, reported, and non-mutating -/
/-- C3: a bet whose amount exceeds the current balance is rejected by
`place_real_bet` with the insufficient-balance message, that message
contains the formatted current balance, and — since the tool's output is a
plain prose string, which `json.loads` cannot parse — the tool step leaves
`simulated_balance`, `bets` and `match_context` exactly unchanged (the
balance is never clamped or reduced). -/
theorem c3_insufficient_balance_rejected (balance amount : Rat) (state : AgentState)
    (call_id : String) (hpos : 0 < amount) (hgt : balance < amount) :
    place_real_bet_validate (some balance) amount = .reply (insufficientMsg balance amount) ∧
    strContains (insufficientMsg balance amount) (fmt2 balance) = true ∧
    (call_tool state (insufficientMsg balance amount) .notJson call_id).simulated_balance
      = state.simulated_balance ∧
    (call_tool state (insufficientMsg balance amount) .notJson call_id).bets = state.bets ∧
    (call_tool state (insufficientMsg balance amount) .notJson call_id).match_context
      = state.match_context ∧
    (call_tool state (insufficientMsg balance amount) .notJson call_id).messages
      = state.messages ++ [Msg.tool (.jstr (insufficientMsg balance amount)) call_id] := by
  refine ⟨?_, ?_, rfl, rfl, rfl, rfl⟩
  · show (if amount ≤ 0 then BetValidation.reply "Bet amount must be positive."
      else if balance < amount then BetValidation.reply (insufficientMsg balance amount)
      else BetValidation.proceed balance) = BetValidation.reply (insufficientMsg balance amount)
    rw [if_neg (by exact not_le.mpr hpos), if_pos hgt]
  · have hmsg : insufficientMsg balance amount
        = "Insufficient balance. You have $" ++ fmt2 balance
          ++ (" but tried to bet $" ++ fmt2 amount ++ ".") := by
      unfold insufficientMsg
      simp [String.append_assoc]
    rw [hmsg]
    exact strContains_append _ _ _

theorem c3_insufficient_balance_rejected_witness :
    (0 : Rat) < 100 ∧ (50 : Rat) < 100 ∧
    strContains (insufficientMsg 50 100) "50" = true ∧
    place_real_bet_validate (some 50) 100 = .reply (insufficientMsg 50 100) :=
  ⟨by decide, by decide, rfl,
    (c3_insufficient_balance_rejected 50 100 ⟨[], none, some 50, []⟩ "call_1"
      (by decide) (by decide)).1⟩

/-! ## Claim C4 — context-patch merge is a frame-preserving shallow overwrite -/
/-- C4: merging a tool-delivered context patch that carries neither a
`"balance_change"` nor a `"new_bet"` key leaves `simulated_balance` and
`bets` exactly unchanged, and the merged `match_context` agrees with the
patch on every key the patch mentions (shallow overwrite of whole values)
and with the previous context on every other key. -/
theorem c4_context_patch_frame (state : AgentState) (raw call_id : String) (d patch : JDict)
    (hctx : List.lookup "context" d = some (.jobj patch))
    (hne : patch ≠ [])
    (hbal : List.lookup "balance_change" patch = none)
    (hbet : List.lookup "new_bet" patch = none) :
    (call_tool state raw (.jsonDict d) call_id).simulated_balance = state.simulated_balance ∧
    (call_tool state raw (.jsonDict d) call_id).bets = state.bets ∧
    (call_tool state raw (.jsonDict d) call_id).match_context
      = some (dictUpdate (state.match_context.getD []) patch) ∧
    (∀ k, List.lookup k patch = none →
      List.lookup k (dictUpdate (state.match_context.getD []) patch)
        = List.lookup k (state.match_context.getD [])) ∧
    (∀ k v, List.lookup k patch = some v →
      List.lookup k (dictUpdate (state.match_context.getD []) patch) = some v) := by
  have hne' : patch.isEmpty = false := by
    cases patch with
    | nil => exact absurd rfl hne
    | cons a l => rfl
  have hred : call_tool state raw (.jsonDict d) call_id
      = applyContextMerge state
          (match List.lookup "display" d with
           | some disp => disp
           | none => JValue.jstr raw) (.jobj patch) call_id := by
    simp only [call_tool, hctx, JValue.isTruthy, hne', Bool.not_false, if_pos]
  have hmerge : ∀ content : JValue,
      applyContextMerge state content (.jobj patch) call_id
        = { state with
              messages := state.messages ++ [Msg.tool content call_id],
              match_context := some (dictUpdate (state.match_context.getD []) patch) } := by
    intro content
    simp only [applyContextMerge, hbal, hbet]
  rw [hred, hmerge]
  refine ⟨rfl, rfl, rfl, ?_, ?_⟩
  · intro k hk
    simp only [dictUpdate]
    exact lookup_append_of_none hk
  · intro k v hk
    simp only [dictUpdate]
    exact lookup_append_of_some hk

theorem c4_context_patch_frame_witness :
    List.lookup "context" [("context", JValue.jobj [("match", JValue.jstr "C vs D")]),
        ("display", JValue.jstr "odds shown")]
      = some (.jobj [("match", JValue.jstr "C vs D")]) ∧
    ([("match", JValue.jstr "C vs D")] : JDict) ≠ [] ∧
    List.lookup "balance_change" ([("match", JValue.jstr "C vs D")] : JDict) = none ∧
    List.lookup "new_bet" ([("match", JValue.jstr "C vs D")] : JDict) = none ∧
    (call_tool ⟨[], some [("match", JValue.jstr "A vs B"), ("odds", JValue.jnum 2)],
        some 100, []⟩ "raw"
      (.jsonDict [("context", JValue.jobj [("match", JValue.jstr "C vs D")]),
        ("display", JValue.jstr "odds shown")]) "call_1").simulated_balance
      = some 100 :=
  ⟨rfl, by simp, rfl, rfl,
    (c4_context_patch_frame
      ⟨[], some [("match", JValue.jstr "A vs B"), ("odds", JValue.jnum 2)], some 100, []⟩
      "raw" "call_1"
      [("context", JValue.jobj [("match", JValue.jstr "C vs D")]),
        ("display", JValue.jstr "odds shown")]
      [("match", JValue.jstr "C vs D")]
      rfl (by simp) rfl rfl).1⟩

/-! ## Claim C5 — error results leave the session state untouched -/
/-- C5: when a tool's output parses to a dict carrying an `"error"` key and
no truthy `"context"` value, the tool step appends the tool-result message
and changes nothing else: `match_context`, `simulated_balance` and `bets`
come out exactly as they went in. -/
theorem c5_error_result_frame (state : AgentState) (raw call_id : String) (d : JDict)
    (herr : (List.lookup "error" d).isSome = true)
    (hctx : ∀ v, List.lookup "context" d = some v → v.isTruthy = false) :
    call_tool state raw (.jsonDict d) call_id
      = { state with messages := state.messages ++ [Msg.tool (.jstr raw) call_id] } := by
  have helif : call_tool_elif state raw d call_id
      = { state with messages := state.messages ++ [Msg.tool (.jstr raw) call_id] } := by
    unfold call_tool_elif
    have : (List.lookup "error" d).isNone = false := by
      cases h : List.lookup "error" d with
      | none => rw [h] at herr; simp at herr
      | some v => rfl
    rw [this]
    simp
  cases h : List.lookup "context" d with
  | none =>
    simp only [call_tool, h]
    exact helif
  | some v =>
    have hv := hctx v h
    simp only [call_tool, h, hv, Bool.false_eq_true, if_neg, if_false]
    exact helif

theorem c5_error_result_frame_witness :
    (List.lookup "error"
      ([("error", JValue.jstr "Odds are currently inactive or unavailable.")] : JDict)).isSome
      = true ∧
    call_tool ⟨[Msg.user "odds for A vs B"], some [("match", JValue.jstr "A vs B")], some 80,
        [JValue.jobj [("match", JValue.jstr "A vs B")]]⟩
      "error text"
      (.jsonDict [("error", JValue.jstr "Odds are currently inactive or unavailable.")])
      "call_9"
      = { messages := [Msg.user "odds for A vs B",
            Msg.tool (.jstr "error text") "call_9"],
          match_context := some [("match", JValue.jstr "A vs B")],
          simulated_balance := some 80,
          bets := [JValue.jobj [("match", JValue.jstr "A vs B")]] } :=
  ⟨rfl,
    c5_error_result_frame
      ⟨[Msg.user "odds for A vs B"], some [("match", JValue.jstr "A vs B")], some 80,
        [JValue.jobj [("match", JValue.jstr "A vs B")]]⟩
      "error text" "call_9"
      [("error", JValue.jstr "Odds are currently inactive or unavailable.")]
      rfl (fun _v h => nomatch h)⟩

/-! ## Claim C6 — odds resolution is order-independent -/
/-- C6: whenever resolving odds for the pair `(A, B)` succeeds with a
normalized snapshot, resolving for `(B, A)` — same catalog (`resolve`),
same fixtures feed, same odds feed — succeeds with the identical snapshot:
the fixture-scan predicate is symmetric in the two resolved teams and
everything after the scan depends only on the found fixture. -/
theorem c6_odds_order_independent (resolve : String → Option String)
    (fixturesResp : Option (List Fixture))
    (getOdds : String → String → String → Option RawOdds)
    (team_one team_two : String) (info : OddsInfo)
    (h : getMatchOddsData resolve fixturesResp getOdds team_one team_two = .ok info) :
    getMatchOddsData resolve fixturesResp getOdds team_two team_one = .ok info := by
  cases h1 : resolve team_one with
  | none => rw [getMatchOddsData, h1] at h; cases resolve team_two <;> simp at h
  | some c1 =>
    cases h2 : resolve team_two with
    | none => rw [getMatchOddsData, h1, h2] at h; simp at h
    | some c2 =>
      rw [getMatchOddsData, h1, h2] at h
      rw [getMatchOddsData, h2, h1]
      simp only at h ⊢
      by_cases hc : c1 = c2
      · rw [if_pos hc] at h; simp at h
      · rw [if_neg hc] at h
        rw [if_neg (fun e => hc e.symm)]
        cases fixturesResp with
        | none => simp at h
        | some fixtures_list =>
          simp only at h ⊢
          by_cases hemp : fixtures_list.isEmpty
          · rw [if_pos hemp] at h; simp at h
          · rw [if_neg hemp] at h
            rw [if_neg hemp]
            rw [find?_ext (fixtureMatchPred_symm resolve c1 c2) fixtures_list]
            cases hf : fixtures_list.find? (fixtureMatchPred resolve c1 c2) with
            | none => rw [hf] at h; simp at h
            | some fx =>
              rw [hf] at h
              exact h

theorem c6_odds_order_independent_witness :
    getMatchOddsData c6Resolve (some [c6Fixture]) c6GetOdds "barca" "real" = .ok c6Info ∧
    getMatchOddsData c6Resolve (some [c6Fixture]) c6GetOdds "real" "barca" = .ok c6Info :=
  ⟨rfl, c6_odds_order_independent c6Resolve (some [c6Fixture]) c6GetOdds "barca" "real"
    c6Info rfl⟩

/-! ## Claim C7 — single-fixture daily analysis -/
/-- Evaluating the analysis loop body on one fully-usable fixture: active
odds, match-result market with both sides carrying odds `h` (home) and `a`
(away), both positive.  The safest pick takes the smaller side, the
riskiest the larger, and the competitiveness gap is `|h - a|`. -/
theorem analyzeStep_usable (getOdds : String → String → String → Option RawOdds)
    (f : Fixture) (od : RawOdds) (rm : RawMarket)
    (home_data away_data : RawOutcome) (h a : Rat)
    (hid : truthyStr f.id = true) (htid : truthyStr f.tournament_id = true)
    (hsid : (f.sport_id.getD "1").isEmpty = false)
    (hodds : getOdds (f.id.getD "") (f.tournament_id.getD "") (f.sport_id.getD "1") = some od)
    (hstatus : od.status = some "Active")
    (hrm : od.result = some rm)
    (hhome : List.lookup "homeTeam" rm = some home_data)
    (haway : List.lookup "awayTeam" rm = some away_data)
    (hh : home_data.odds = some h) (ha : away_data.odds = some a)
    (hhpos : 0 < h) :
    analyzeStep getOdds initialAnalysisAcc f =
      { safest_bet :=
          if a < h then
            ⟨.val a, some (home_data.name.getD "Home" ++ " vs " ++ away_data.name.getD "Away"),
              some (away_data.name.getD "Away")⟩
          else
            ⟨.val h, some (home_data.name.getD "Home" ++ " vs " ++ away_data.name.getD "Away"),
              some (home_data.name.getD "Home")⟩
        riskiest_bet :=
          if h < a then
            ⟨.val a, some (home_data.name.getD "Home" ++ " vs " ++ away_data.name.getD "Away"),
              some (away_data.name.getD "Away")⟩
          else
            ⟨.val h, some (home_data.name.getD "Home" ++ " vs " ++ away_data.name.getD "Away"),
              some (home_data.name.getD "Home")⟩
        most_competitive :=
          ⟨.val |h - a|,
            some (home_data.name.getD "Home" ++ " vs " ++ away_data.name.getD "Away")⟩ } := by
  have hrmne : rm.isEmpty = false := lookup_isSome_not_isEmpty hhome
  unfold analyzeStep
  simp only [hid, htid, hsid, Bool.not_false, Bool.and_self, Bool.not_true, Bool.false_eq_true,
    if_false, hodds, hstatus, ne_eq, not_true_eq_false, hrm, hrmne, hhome, haway, hh, ha,
    initialAnalysisAcc, PFloat.ltOf, PFloat.gtOf, decide_eq_true_eq]
  by_cases hc1 : a < h
  · simp [hc1, (le_of_lt hc1).not_lt, hhpos]
  · by_cases hc2 : h < a
    · simp [hc1, hc2, hhpos]
    · simp [hc1, hc2, hhpos]

/-- C7 counterexample: a date range containing exactly one fixture with
active odds and a usable match-result market (both sides carry an `"odds"`
value — here 0.0) for which the riskiest-bet result comes out unpopulated:
`riskiest_bet` starts at odds 0 and only strictly greater odds replace it,
so its fixture stays `None` while safest and most-competitive are filled
in.  This refutes the claim that every such range produces three populated
results. -/
theorem c7_zero_odds_riskiest_unpopulated :
    analyze_daily_odds (fun _ => none) ⟨2025, 3, 1⟩ 2025 (some [c7Fixture]) c7ZeroOdds
        "this month"
      = .ok ⟨2025, 3, 1⟩ ⟨2025, 3, 31⟩ (analyzeLoop c7ZeroOdds [c7Fixture]) ∧
    (analyzeLoop c7ZeroOdds [c7Fixture]).safest_bet.fixture = some "A vs B" ∧
    (analyzeLoop c7ZeroOdds [c7Fixture]).most_competitive.fixture = some "A vs B" ∧
    (analyzeLoop c7ZeroOdds [c7Fixture]).riskiest_bet.fixture = none :=
  ⟨rfl, rfl, rfl, rfl⟩

/-- C7 (amended): over a date range containing exactly one fixture with
active odds and a usable match-result market **whose two odds are
positive** (decimal odds always are in practice; a non-positive pair leaves
the riskiest pick unpopulated, see the counterexample), the daily analysis
succeeds and produces populated safest, riskiest and most-competitive
results, with safest odds equal to riskiest odds exactly when the home and
away odds are equal. -/
theorem c7_single_fixture_analysis
    (dp : String → Option Date) (today : Date) (currentYear : Nat)
    (fixturesResp : Option (List Fixture))
    (getOdds : String → String → String → Option RawOdds) (date_query : String)
    (start_date end_date : Date) (f : Fixture) (fixtures_list : List Fixture)
    (od : RawOdds) (rm : RawMarket) (home_data away_data : RawOutcome) (h a : Rat)
    (hparse : parse_date_range dp date_query today = some (start_date, end_date))
    (hresp : fixturesResp = some fixtures_list)
    (hflne : fixtures_list.isEmpty = false)
    (hfilter : analyzeDateFilter currentYear start_date end_date fixtures_list = [f])
    (hid : truthyStr f.id = true) (htid : truthyStr f.tournament_id = true)
    (hsid : (f.sport_id.getD "1").isEmpty = false)
    (hodds : getOdds (f.id.getD "") (f.tournament_id.getD "") (f.sport_id.getD "1") = some od)
    (hstatus : od.status = some "Active")
    (hrm : od.result = some rm)
    (hhome : List.lookup "homeTeam" rm = some home_data)
    (haway : List.lookup "awayTeam" rm = some away_data)
    (hh : home_data.odds = some h) (ha : away_data.odds = some a)
    (hhpos : 0 < h) (hapos : 0 < a) :
    analyze_daily_odds dp today currentYear fixturesResp getOdds date_query
      = .ok start_date end_date (analyzeLoop getOdds [f]) ∧
    (analyzeLoop getOdds [f]).safest_bet.fixture.isSome = true ∧
    (analyzeLoop getOdds [f]).riskiest_bet.fixture.isSome = true ∧
    (analyzeLoop getOdds [f]).most_competitive.fixture.isSome = true ∧
    (h = a →
      (analyzeLoop getOdds [f]).safest_bet.odds = (analyzeLoop getOdds [f]).riskiest_bet.odds) ∧
    (h ≠ a →
      (analyzeLoop getOdds [f]).safest_bet.odds ≠ (analyzeLoop getOdds [f]).riskiest_bet.odds) := by
  have hloop : analyzeLoop getOdds [f] = analyzeStep getOdds initialAnalysisAcc f := rfl
  have hstep := analyzeStep_usable getOdds f od rm home_data away_data h a
    hid htid hsid hodds hstatus hrm hhome haway hh ha hhpos
  have hsf : (analyzeLoop getOdds [f]).safest_bet.fixture
      = some (home_data.name.getD "Home" ++ " vs " ++ away_data.name.getD "Away") := by
    rw [hloop, hstep]
    split_ifs <;> rfl
  refine ⟨?_, ?_, ?_, ?_, ?_, ?_⟩
  · simp only [analyze_daily_odds, hparse, hresp, hflne, Bool.false_eq_true, if_false, hfilter]
    simp [hsf]
  · rw [hsf]; rfl
  · rw [hloop, hstep]; split_ifs <;> rfl
  · rw [hloop, hstep]; split_ifs <;> rfl
  · intro heq
    subst heq
    simp [hloop, hstep]
  · intro hne
    rcases lt_or_gt_of_ne hne with hlt | hgt
    · simp [hloop, hstep, hlt, lt_asymm hlt, hne]
    · have hlt2 : a < h := hgt
      simp [hloop, hstep, hlt2, lt_asymm hlt2, Ne.symm hne]

theorem c7_single_fixture_analysis_witness :
    parse_date_range (fun _ => none) "this month" ⟨2025, 3, 1⟩
      = some (⟨2025, 3, 1⟩, ⟨2025, 3, 31⟩) ∧
    analyzeDateFilter 2025 ⟨2025, 3, 1⟩ ⟨2025, 3, 31⟩ [c7Fixture2] = [c7Fixture2] ∧
    analyze_daily_odds (fun _ => none) ⟨2025, 3, 1⟩ 2025 (some [c7Fixture2]) c7GoodOdds
        "this month"
      = .ok ⟨2025, 3, 1⟩ ⟨2025, 3, 31⟩ (analyzeLoop c7GoodOdds [c7Fixture2]) ∧
    (analyzeLoop c7GoodOdds [c7Fixture2]).riskiest_bet.fixture.isSome = true ∧
    (analyzeLoop c7GoodOdds [c7Fixture2]).safest_bet.odds
      ≠ (analyzeLoop c7GoodOdds [c7Fixture2]).riskiest_bet.odds := by
  have hmain := c7_single_fixture_analysis (fun _ => none) ⟨2025, 3, 1⟩ 2025
    (some [c7Fixture2]) c7GoodOdds "this month" ⟨2025, 3, 1⟩ ⟨2025, 3, 31⟩
    c7Fixture2 [c7Fixture2] c7Odds2 c7Market2 ⟨some "A", some 2⟩ ⟨some "B", some 3⟩ 2 3
    rfl rfl rfl rfl rfl rfl rfl rfl rfl rfl rfl rfl rfl rfl (by decide) (by decide)
  exact ⟨rfl, rfl, hmain.1, hmain.2.2.1, hmain.2.2.2.2.2 (by decide)⟩

/-- C8: with "today" = 2025-03-01, the query "this month" resolves to the
range 2025-03-01 … 2025-03-31 and "end of the month" to 2025-03-27 …
2025-03-31 (the last 5 calendar days of the 31-day month); a fixture dated
`2025-03-10T18:00:00Z` passes the date-range fixture filter for the former
and is excluded by the latter. -/
theorem c8_march_month_ranges :
    parse_date_range (fun _ => none) "this month" ⟨2025, 3, 1⟩
      = some (⟨2025, 3, 1⟩, ⟨2025, 3, 31⟩) ∧
    parse_date_range (fun _ => none) "end of the month" ⟨2025, 3, 1⟩
      = some (⟨2025, 3, 27⟩, ⟨2025, 3, 31⟩) ∧
    analyzeDateFilter 2025 ⟨2025, 3, 1⟩ ⟨2025, 3, 31⟩ [c8Fixture] = [c8Fixture] ∧
    analyzeDateFilter 2025 ⟨2025, 3, 27⟩ ⟨2025, 3, 31⟩ [c8Fixture] = [] :=
  ⟨rfl, rfl, rfl, rfl⟩

/-! ## Claim C9 — readiness gate on the chat endpoint -/
/-- C9: while the readiness flag is false, every turn request is rejected
with the 503 "not ready" signal — and the outcome does not depend on the
agent at all, so the decision/tool loop is never run; once the flag is
true, the request is accepted and the agent graph is invoked on the session
state with the user message appended. -/
theorem c9_readiness_gate (runAgent runAgentOther : AgentState → AgentState)
    (sessionState : AgentState) (user_input : String) :
    chat_endpoint false runAgent sessionState user_input
      = .notReady "The chatbot is still initializing its knowledge base. Please wait a moment and try again." ∧
    chat_endpoint false runAgent sessionState user_input
      = chat_endpoint false runAgentOther sessionState user_input ∧
    chat_endpoint true runAgent sessionState user_input
      = .ok (runAgent
          { sessionState with messages := sessionState.messages ++ [Msg.user user_input] }) :=
  ⟨rfl, rfl, rfl⟩

/-! ## Claim C10 — team fixture listings are capped at the 5 soonest -/
/-- C10: whenever `find_team_fixture` returns a listing, the listing holds
the formatted first 5 of the kickoff-sorted candidates — so at most 5
lines, exactly 5 when at least 5 candidates exist (anything beyond is
silently dropped), and every listed fixture kicks off no later than every
omitted one. -/
theorem c10_listing_soonest_five (extractOne : String → List String → String × Nat)
    (pratio : String → String → Nat)
    (allTeams : List String) (fixtures_list : List Fixture)
    (today : Date) (currentYear : Nat)
    (team_name : String) (competition_name : Option String) (lines : List String)
    (h : find_team_fixture extractOne pratio allTeams (some fixtures_list) today currentYear
          team_name competition_name = .listing lines) :
    lines.length ≤ 5 ∧
    lines = ((teamFixtureCandidates extractOne pratio allTeams fixtures_list today currentYear
        team_name competition_name).take 5).map fixtureLine ∧
    (5 ≤ (teamFixtureCandidates extractOne pratio allTeams fixtures_list today currentYear
        team_name competition_name).length → lines.length = 5) ∧
    (∀ p ∈ (teamFixtureCandidates extractOne pratio allTeams fixtures_list today currentYear
        team_name competition_name).take 5,
     ∀ q ∈ (teamFixtureCandidates extractOne pratio allTeams fixtures_list today currentYear
        team_name competition_name).drop 5,
      DateTime.le p.2 q.2 = true) := by
  have hlines : lines = ((teamFixtureCandidates extractOne pratio allTeams fixtures_list today
      currentYear team_name competition_name).take 5).map fixtureLine := by
    rw [find_team_fixture] at h
    split at h
    · cases h
    · split at h
      · cases h
      · split at h
        · cases h
        · split at h
          · split at h
            · cases h
            · cases h
          · injection h with h'
            exact h'.symm
  have hsorted : List.Pairwise (fun p q : Fixture × DateTime => DateTime.le p.2 q.2 = true)
      (teamFixtureCandidates extractOne pratio allTeams fixtures_list today currentYear
        team_name competition_name) := by
    haveI : IsTotal (Fixture × DateTime) (fun p q => DateTime.le p.2 q.2 = true) := by
      constructor
      intro a b
      simp only [DateTime.le, decide_eq_true_eq]
      exact Nat.le_total _ _
    haveI : IsTrans (Fixture × DateTime) (fun p q => DateTime.le p.2 q.2 = true) := by
      constructor
      intro a b c hab hbc
      simp only [DateTime.le, decide_eq_true_eq] at *
      exact Nat.le_trans hab hbc
    exact List.sorted_insertionSort _ _
  refine ⟨?_, hlines, ?_, ?_⟩
  · rw [hlines]
    simp only [List.length_map, List.length_take]
    exact min_le_left _ _
  · intro h5
    rw [hlines]
    simp only [List.length_map, List.length_take]
    omega
  · have hsplit := (List.take_append_drop 5 (teamFixtureCandidates extractOne pratio allTeams
      fixtures_list today currentYear team_name competition_name)).symm
    rw [hsplit] at hsorted
    exact (List.pairwise_append.mp hsorted).2.2

theorem c10_listing_soonest_five_witness :
    find_team_fixture c10ExtractOne c10PRatio ["FC Test"] (some c10Fixtures)
        ⟨2025, 3, 1⟩ 2025 "FC Test" none
      = .listing (((teamFixtureCandidates c10ExtractOne c10PRatio ["FC Test"] c10Fixtures
          ⟨2025, 3, 1⟩ 2025 "FC Test" none).take 5).map fixtureLine) ∧
    (teamFixtureCandidates c10ExtractOne c10PRatio ["FC Test"] c10Fixtures
        ⟨2025, 3, 1⟩ 2025 "FC Test" none).length = 7 ∧
    (((teamFixtureCandidates c10ExtractOne c10PRatio ["FC Test"] c10Fixtures
        ⟨2025, 3, 1⟩ 2025 "FC Test" none).take 5).map fixtureLine).length = 5 :=
  ⟨rfl, rfl,
    (c10_listing_soonest_five c10ExtractOne c10PRatio ["FC Test"] c10Fixtures
      ⟨2025, 3, 1⟩ 2025 "FC Test" none _ rfl).2.2.1 (by decide)⟩
